import Mathlib

/-!
Verification of the trend-aggregation and idea-ranking pipeline implemented in
`app/agents/research_agent.py` (class `ResearchAgent`).

The Python code is shallowly embedded: every dict that flows through the
pipeline becomes a record, every pure method becomes a Lean function, and the
two sources of non-determinism (`random.choice` and `datetime.utcnow`) become
explicit oracle parameters (`choice : List String → String`, `now : String`).
Python floats are modelled as exact rationals: the literal `0.6` is modelled
as `3/5`, `round(x, 2)` as `round2` below.  The tie-breaking direction of
`round` and the binary representation of floats are abstracted; no theorem in
this file depends on the behaviour of a rounding tie.
-/

attribute [local semireducible] Rat.add Rat.mul Rat.inv Rat.sub

deriving instance DecidableEq for Except

/-! ### String primitives

Python string operations are modelled on the underlying character lists
(`String.data`), because the pipeline only manipulates ASCII topic phrases.
`lowerStr` models `str.lower`, `splitWords` models `str.split()` (whitespace
is taken to be the space character), and `strContains hay needle` models the
Python expression `needle in hay`. -/

def lowerStr (s : String) : String :=
  String.mk (s.data.map Char.toLower)

def splitChars : List Char → List Char → List (List Char)
  | [], acc => [acc.reverse]
  | c :: cs, acc =>
    if c = ' ' then acc.reverse :: splitChars cs [] else splitChars cs (c :: acc)

def splitWords (s : String) : List String :=
  ((splitChars s.data []).map String.mk).filter (fun w => w ≠ "")

def strContains (hay needle : String) : Bool :=
  hay.data.tails.any (fun t => needle.data.isPrefixOf t)

/-! ### Data model

`TopicDict` embeds the topic dicts built by the source adapters and consumed
by `_deduplicate_topics` / `_calculate_relevance_scores`.  The spec calls the
source-reported score `raw_score`; in the code it is stored under the
`relevance_score` key and overwritten by the scorer.  Adapter-specific extra
keys (`raw_score` for reddit, `post_age_hours`, `product_name`, ...) are read
by no pipeline stage and are omitted.  `craefto_boost` is the key added by the
scorer (0 before scoring). -/

structure TopicDict where
  topic : String
  relevance_score : ℚ
  source : String
  context : String
  content_angle : String
  craefto_boost : ℚ
deriving DecidableEq

/-- `round(x, 2)` of the Python code, modelled as rounding `x` to a multiple
of `1/100` (ties upward; Python rounds ties to even, a difference no theorem
below depends on). -/
def round2 (x : ℚ) : ℚ :=
  ((x * 100 + 1/2).floor : ℚ) / 100

/-- `self.craefto_keywords` from `ResearchAgent.__init__`. -/
def craefto_keywords : List String :=
  ["framer", "design", "templates", "saas", "conversion", "landing page",
   "ui/ux", "web design", "no-code", "startup", "marketing", "growth",
   "optimization", "user experience", "interface", "prototype"]

/-- `sum(1 for keyword in self.craefto_keywords if keyword in text_lower)`
from `_calculate_craefto_relevance`. -/
def keyword_match_count (text : String) : ℕ :=
  (craefto_keywords.filter (fun kw => strContains (lowerStr text) kw)).length

/-- `_calculate_craefto_relevance`: `min(matches / len(self.craefto_keywords), 1.0)`. -/
def calculate_craefto_relevance (text : String) : ℚ :=
  min ((keyword_match_count text : ℚ) / (craefto_keywords.length : ℚ)) 1

/-- The `source_multipliers` dict of `_calculate_relevance_scores`, including
the `.get(source, 1.0)` default for unknown sources. -/
def source_multipliers (source : String) : ℚ :=
  if source = "reddit" then 6/5
  else if source = "producthunt" then 11/10
  else if source = "google_trends" then 13/10
  else if source = "twitter" then 1
  else 1

/-- The score computation of `_calculate_relevance_scores`:
`round(min((base_score + craefto_boost) * multiplier, 100), 2)`. -/
def relevance_formula (base_score craefto_boost multiplier : ℚ) : ℚ :=
  round2 (min ((base_score + craefto_boost) * multiplier) 100)

/-- One iteration of the loop in `_calculate_relevance_scores`.  The Python
loop assigns `topic_data['relevance_score']` and `topic_data['craefto_boost']`
on the dict **in place**; this function returns the state of that dict after
the iteration. -/
def score_topic (topic_data : TopicDict) : TopicDict :=
  let craefto_boost := calculate_craefto_relevance topic_data.topic * 30
  { topic_data with
      relevance_score :=
        relevance_formula topic_data.relevance_score craefto_boost
          (source_multipliers topic_data.source),
      craefto_boost := round2 craefto_boost }

/-- `_calculate_relevance_scores`.  The Python function mutates each dict of
its argument list in place and returns the same list object, so the records
returned here are also the post-call state of the records passed in. -/
def calculate_relevance_scores (topics : List TopicDict) : List TopicDict :=
  topics.map score_topic

/-! ### Deduplication (`_deduplicate_topics`) -/

/-- `set(topic.split())`: the distinct words of a topic string, as a
duplicate-free list. -/
def word_set (topic : String) : List String :=
  (splitWords topic).dedup

/-- `len(topic_words.intersection(seen_words))` for two word sets. -/
def overlap_count (topic_words seen_words : List String) : ℕ :=
  (topic_words.filter (fun w => seen_words.contains w)).length

/-- The duplicate test of `_deduplicate_topics`:
`overlap >= 2 and (overlap / len(topic_words) > 0.6 or overlap / len(seen_words) > 0.6)`.
Note the comparisons are strict. -/
def is_duplicate_pair (topic_words seen_words : List String) : Bool :=
  let overlap := overlap_count topic_words seen_words
  decide (2 ≤ overlap ∧
    ((3:ℚ)/5 < (overlap : ℚ) / (topic_words.length : ℚ) ∨
     (3:ℚ)/5 < (overlap : ℚ) / (seen_words.length : ℚ)))

/-- The loop of `_deduplicate_topics`: `seen_topics` is the set of lowercased
topics kept so far (modelled as a list; the test only asks whether **some**
member matches, so multiplicity and order of `seen_topics` are irrelevant). -/
def dedup_go : List TopicDict → List String → List TopicDict
  | [], _ => []
  | topic_data :: rest, seen_topics =>
    let topic := lowerStr topic_data.topic
    let topic_words := word_set topic
    if seen_topics.any (fun seen => is_duplicate_pair topic_words (word_set seen)) then
      dedup_go rest seen_topics
    else
      topic_data :: dedup_go rest (seen_topics ++ [topic])

/-- `_deduplicate_topics`. -/
def deduplicate_topics (topics : List TopicDict) : List TopicDict :=
  dedup_go topics []

/-- Reference definition transcribing the amended claim C4: a candidate is
dropped exactly when some **previously kept** candidate's lowercased topic
word set meets the overlap test of `is_duplicate_pair` (overlap at least 2,
and either containment ratio strictly above `0.6`); otherwise it is kept. -/
def dedupe_spec_go : List TopicDict → List TopicDict → List TopicDict
  | [], _ => []
  | c :: rest, kept =>
    if kept.any (fun k =>
        is_duplicate_pair (word_set (lowerStr c.topic)) (word_set (lowerStr k.topic))) then
      dedupe_spec_go rest kept
    else
      c :: dedupe_spec_go rest (kept ++ [c])

/-- The amended-claim reference deduplicator (see `dedupe_spec_go`). -/
def dedupe_spec (topics : List TopicDict) : List TopicDict :=
  dedupe_spec_go topics []

/-! ### Sorting

`sorted(xs, key=..., reverse=True)` is Python's stable descending sort.  It is
modelled by a stable insertion sort: an element is inserted after every
already-placed element with a strictly greater key and before the first one
with a smaller-or-equal key, so that elements with equal keys keep the order
in which they occurred.  Theorems `c6`... below prove the three properties
(sortedness, permutation, key-stability) that characterise the Python sort
uniquely. -/

def insert_desc {α : Type} (key : α → ℚ) (x : α) : List α → List α
  | [] => [x]
  | y :: ys => if key x < key y then y :: insert_desc key x ys else x :: y :: ys

def sort_desc {α : Type} (key : α → ℚ) : List α → List α
  | [] => []
  | x :: xs => insert_desc key x (sort_desc key xs)

/-- The final ranking step of `find_trending_topics`:
`sorted(scored_topics, key=lambda x: x['relevance_score'], reverse=True)[:20]`. -/
def rank_topics (scored_topics : List TopicDict) : List TopicDict :=
  (sort_desc (fun t => t.relevance_score) scored_topics).take 20

/-! ### Pipeline coordinator (`find_trending_topics`)

The coordinator gathers the four adapter coroutines with
`asyncio.gather(..., return_exceptions=True)`: each element of `results` is
either a candidate list or a caught exception value.  The embedding takes that
result list as input (`Except.error` standing for an adapter that raised) and
is a total function: the loop skips exception results with `continue`, so no
adapter failure and no empty source can make the coordinator itself raise. -/

def collect_gathered : List (Except String (List TopicDict)) → List TopicDict
  | [] => []
  | Except.ok result :: rest => result ++ collect_gathered rest
  | Except.error _ :: rest => collect_gathered rest

def find_trending_topics (results : List (Except String (List TopicDict))) : List TopicDict :=
  let all_topics := collect_gathered results
  let unique_topics := deduplicate_topics all_topics
  let scored_topics := calculate_relevance_scores unique_topics
  rank_topics scored_topics

/-! ### Idea synthesis (`generate_content_ideas` and helpers)

`random.choice(xs)` is modelled by an oracle `choice : List String → String`
passed through every function that draws from a template list, and
`datetime.utcnow()` by an oracle string `now`. -/

/-- `self.content_angles` from `ResearchAgent.__init__`. -/
def content_angles : List String :=
  ["Framer template showcase", "SaaS design breakdown", "CRO optimization tips",
   "Design trend analysis", "Template customization guide", "User experience insights",
   "Conversion optimization case study", "Design system breakdown",
   "No-code solution comparison", "Startup design mistakes"]

/-- `_generate_craefto_angle`. -/
def generate_craefto_angle (choice : List String → String) (topic : String) : String :=
  let topic_lower := lowerStr topic
  if ["design", "ui", "ux", "interface"].any (fun w => strContains topic_lower w) then
    choice ["SaaS design breakdown", "Design system analysis", "User experience insights"]
  else if ["framer", "template", "prototype"].any (fun w => strContains topic_lower w) then
    choice ["Framer template showcase", "Template customization guide",
      "Prototype to production workflow"]
  else if ["conversion", "cro", "optimization"].any (fun w => strContains topic_lower w) then
    choice ["CRO optimization tips", "Conversion optimization case study",
      "Landing page optimization"]
  else if ["startup", "saas", "business"].any (fun w => strContains topic_lower w) then
    choice ["SaaS growth strategy", "Startup design mistakes", "Business model analysis"]
  else
    choice content_angles

/-- The `title_templates` lists of `_create_content_idea` (f-strings rendered
by concatenation; the typographic apostrophe stands for the ASCII one).  For a
format other than the three used, the Python local would be unbound and the
function would raise; no caller reaches that branch, modelled by `[]`. -/
def title_templates (topic format_type : String) : List String :=
  if format_type = "blog" then
    ["How " ++ topic ++ " is Transforming SaaS Design in 2024",
     "The Complete Guide to " ++ topic ++ " for SaaS Founders",
     topic ++ ": What Every Designer Needs to Know",
     "Building Better SaaS Products with " ++ topic,
     "Why " ++ topic ++ " Matters for Your SaaS Growth Strategy"]
  else if format_type = "social" then
    ["🔥 " ++ topic ++ " is trending! Here’s why it matters for SaaS:",
     "💡 Quick tip: How to leverage " ++ topic ++ " in your design process",
     "🚀 " ++ topic ++ " breakdown - what you need to know",
     "⚡ " ++ topic ++ " insights that will boost your conversion rates"]
  else if format_type = "email" then
    ["Weekly Insight: " ++ topic ++ " Impact on SaaS",
     "Trend Alert: " ++ topic ++ " Opportunities",
     "Designer’s Brief: " ++ topic ++ " Essentials"]
  else []

/-- `_estimate_engagement` (its `base_engagement` local is dead code and is
not modelled). -/
def estimate_engagement (choice : List String → String) (format_type : String)
    (relevance : ℚ) : String :=
  let _ := format_type
  if 7/10 < relevance then choice ["High", "Very High"]
  else if 2/5 < relevance then choice ["Medium", "High"]
  else "Medium"

/-- `_determine_target_audience`. -/
def determine_target_audience (topic : String) : List String :=
  let topic_lower := lowerStr topic
  if ["founder", "startup", "business"].any (fun w => strContains topic_lower w) then
    ["SaaS founders", "Startup founders"]
  else if ["design", "ui", "ux"].any (fun w => strContains topic_lower w) then
    ["Product designers", "UI/UX designers"]
  else if ["marketing", "growth", "conversion"].any (fun w => strContains topic_lower w) then
    ["Product marketers", "Growth teams"]
  else
    ["SaaS founders", "Product designers"]

/-- `_map_to_content_pillars`. -/
def map_to_content_pillars (topic : String) : List String :=
  let topic_lower := lowerStr topic
  let pillars :=
    (if ["framer", "template"].any (fun w => strContains topic_lower w) then
      ["Framer tutorials"] else []) ++
    (if ["design", "ui", "ux"].any (fun w => strContains topic_lower w) then
      ["SaaS design patterns", "Web Design trends"] else []) ++
    (if ["conversion", "optimization", "cro"].any (fun w => strContains topic_lower w) then
      ["CRO tips"] else []) ++
    (if ["template", "component"].any (fun w => strContains topic_lower w) then
      ["Template showcases"] else [])
  if pillars = [] then ["SaaS design patterns"] else pillars

/-- `_generate_seo_keywords`. -/
def generate_seo_keywords (topic : String) : List String :=
  let craefto_additions :=
    ["saas design", "framer templates", "ui design", "conversion optimization"]
  [lowerStr topic] ++ (craefto_additions.take 2).map (fun kw => lowerStr topic ++ " " ++ kw)

/-- `_generate_cta`. -/
def generate_cta (choice : List String → String) (format_type : String) : String :=
  let blog_ctas := ["Download our free Framer template collection",
    "Get started with our SaaS design system", "Book a free design consultation"]
  if format_type = "blog" then choice blog_ctas
  else if format_type = "social" then
    choice ["Follow for more SaaS design tips", "Check out our latest templates",
      "DM for custom design work"]
  else if format_type = "email" then
    choice ["Explore our template library", "Schedule a design review",
      "Join our design community"]
  else choice blog_ctas

/-- The content-idea record built by `_create_content_idea`; `id` and
`generated_at` are absent (`none`) until `generate_content_ideas` assigns
them to the final selection. -/
structure ContentIdea where
  title : String
  topic : String
  format : String
  content_angle : String
  source_trend : String
  priority_score : ℚ
  context : String
  estimated_engagement : String
  target_audience : List String
  content_pillars : List String
  seo_keywords : List String
  call_to_action : String
  id : Option String
  generated_at : Option String
deriving DecidableEq

/-- `_create_content_idea`. -/
def create_content_idea (choice : List String → String)
    (topic context source format_type : String) : ContentIdea :=
  let title := choice (title_templates topic format_type)
  let topic_relevance := calculate_craefto_relevance topic
  let format_priority : ℚ :=
    if format_type = "blog" then 1
    else if format_type = "social" then 4/5
    else if format_type = "email" then 9/10
    else 1
  let priority_score := (topic_relevance * 100) * format_priority
  { title := title
    topic := topic
    format := format_type
    content_angle := generate_craefto_angle choice topic
    source_trend := source
    priority_score := round2 priority_score
    context := String.mk (context.data.take 200)
    estimated_engagement := estimate_engagement choice format_type topic_relevance
    target_audience := determine_target_audience topic
    content_pillars := map_to_content_pillars topic
    seo_keywords := generate_seo_keywords topic
    call_to_action := generate_cta choice format_type
    id := none
    generated_at := none }

/-- An element of the `trending_data` argument of `generate_content_ideas`:
either a topic dict, or (`other`) any object on which the `.get` field
accesses performed inside the loop raise. -/
inductive PyObj where
  | trend (t : TopicDict)
  | other
deriving DecidableEq

/-- One loop iteration of `generate_content_ideas`: the per-trend fan-out into
formats.  `['blog', 'social', 'email']` when `relevance_score > 70`, else
`['blog']`; `_create_content_idea` always returns a (truthy) dict, so every
built idea is appended. -/
def ideas_for_trend (choice : List String → String) (trend : TopicDict) : List ContentIdea :=
  let formats := if (70:ℚ) < trend.relevance_score then ["blog", "social", "email"]
    else ["blog"]
  formats.map (fun format_type =>
    create_content_idea choice trend.topic trend.context trend.source format_type)

/-- The `for` loop of `generate_content_ideas` over `trending_data[:10]`.
Reaching a `PyObj.other` element raises (`Except.error`), abandoning the
ideas accumulated so far. -/
def build_content_ideas (choice : List String → String) :
    List PyObj → Except String (List ContentIdea)
  | [] => Except.ok []
  | PyObj.other :: _ => Except.error "AttributeError"
  | PyObj.trend t :: rest =>
    Except.map (fun tail => ideas_for_trend choice t ++ tail)
      (build_content_ideas choice rest)

/-- The id/timestamp loop run after the top-5 selection:
`idea['id'] = f"idea_..._{i}"; idea['generated_at'] = ...`. -/
def assign_ids (now : String) (ideas : List ContentIdea) : List ContentIdea :=
  ideas.enum.map (fun p =>
    { p.2 with id := some ("idea_" ++ now ++ "_" ++ toString p.1), generated_at := some now })

/-- `generate_content_ideas`.  The `try` block builds the ideas, sorts them by
`priority_score` descending and truncates to 5; any exception inside the
`try` is caught and logged, but then `return prioritized_ideas` reads a local
that was never assigned, so the call raises `UnboundLocalError` — modelled by
the `Except.error` branch. -/
def generate_content_ideas (choice : List String → String) (now : String)
    (trending_data : List PyObj) : Except String (List ContentIdea) :=
  match build_content_ideas choice (trending_data.take 10) with
  | Except.ok content_ideas =>
    let prioritized_ideas :=
      (sort_desc (fun idea => idea.priority_score) content_ideas).take 5
    Except.ok (assign_ids now prioritized_ideas)
  | Except.error _ => Except.error "UnboundLocalError: prioritized_ideas"

/-! ### Concrete inputs used by witnesses and counterexamples -/

/-- A candidate kept first by the deduplicator: ten distinct topic words. -/
def dup_seen_example : TopicDict :=
  { topic := "alpha beta gamma one two three four five six seven",
    relevance_score := 50, source := "twitter", context := "", content_angle := "",
    craefto_boost := 0 }

/-- A later candidate with five topic words, three of them shared with
`dup_seen_example`: its containment ratio is exactly `3/5 = 0.6`. -/
def dup_candidate_example : TopicDict :=
  { topic := "alpha beta gamma delta epsilon",
    relevance_score := 40, source := "twitter", context := "", content_angle := "",
    craefto_boost := 0 }

/-- A candidate whose topic matches two domain keywords (`design`, `saas`),
used to exhibit the scorer updating the record it receives. -/
def scorer_input_example : TopicDict :=
  { topic := "saas design", relevance_score := 50, source := "reddit",
    context := "ctx", content_angle := "angle", craefto_boost := 0 }

/-- A well-formed candidate with a non-negative source-reported score. -/
def scorer_nonneg_example : TopicDict :=
  { topic := "saas design tools", relevance_score := 50, source := "reddit",
    context := "", content_angle := "", craefto_boost := 0 }

/-- 30 scored topics with pairwise distinct `relevance_score`s. -/
def ranking_input_30 : List TopicDict :=
  (List.range 30).map (fun i =>
    { topic := "t", relevance_score := (i : ℚ), source := "s", context := "",
      content_angle := "", craefto_boost := 0 })

/-- A scored topic above the idea fan-out threshold. -/
def fanout_high_example : TopicDict :=
  { topic := "saas design", relevance_score := 75, source := "twitter",
    context := "", content_angle := "", craefto_boost := 0 }

/-- A scored topic below the idea fan-out threshold. -/
def fanout_low_example : TopicDict :=
  { topic := "saas design", relevance_score := 50, source := "twitter",
    context := "", content_angle := "", craefto_boost := 0 }

/-- A deterministic stand-in for the `random.choice` oracle. -/
def choice_head (options : List String) : String :=
  options.headD ""

/-- The end-to-end example of spec section 8: of four adapters one fails and
the near-duplicate topics "AI Saas Tools" and "Ai Saas Tooling" are merged
(overlap 2 and ratio 2/3 above the threshold), leaving 2 scored topics. -/
theorem end_to_end_spec_example :
    (find_trending_topics
      [Except.ok [{ topic := "AI Saas Tools", relevance_score := 80, source := "twitter",
                    context := "", content_angle := "", craefto_boost := 0 }],
       Except.error "simulated failure",
       Except.ok [{ topic := "No-Code Platforms", relevance_score := 40,
                    source := "producthunt", context := "", content_angle := "",
                    craefto_boost := 0 }],
       Except.ok [{ topic := "Ai Saas Tooling", relevance_score := 85,
                    source := "google_trends", context := "", content_angle := "",
                    craefto_boost := 0 }]]).length = 2 := by decide

/-! ### Helper lemmas: rounding and the scorer -/

theorem rat_floor_eq_int_floor (q : ℚ) : Rat.floor q = ⌊q⌋ :=
  (Rat.floor_def' q).trans Rat.floor_def.symm

theorem round2_eq (x : ℚ) : round2 x = ((⌊x * 100 + 1/2⌋ : ℤ) : ℚ) / 100 := by
  rw [round2, rat_floor_eq_int_floor]

theorem round2_mono {x y : ℚ} (h : x ≤ y) : round2 x ≤ round2 y := by
  rw [round2_eq, round2_eq]
  apply (div_le_div_iff_of_pos_right (by norm_num : (0:ℚ) < 100)).mpr
  exact_mod_cast Int.floor_le_floor (by linarith)

theorem round2_nonneg {x : ℚ} (h : 0 ≤ x) : 0 ≤ round2 x := by
  have h0 : round2 0 = 0 := by decide
  calc (0:ℚ) = round2 0 := h0.symm
    _ ≤ round2 x := round2_mono h

theorem round2_le_100 {x : ℚ} (h : x ≤ 100) : round2 x ≤ 100 := by
  have h100 : round2 100 = 100 := by decide
  calc round2 x ≤ round2 100 := round2_mono h
    _ = 100 := h100

theorem craefto_keywords_length : craefto_keywords.length = 16 := rfl

theorem craefto_relevance_eq (text : String) :
    calculate_craefto_relevance text =
      (keyword_match_count text : ℚ) / (craefto_keywords.length : ℚ) := by
  apply min_eq_left
  rw [div_le_one (by rw [craefto_keywords_length]; norm_num)]
  have hle : keyword_match_count text ≤ craefto_keywords.length :=
    List.length_filter_le _ _
  exact_mod_cast hle

theorem craefto_relevance_nonneg (text : String) :
    0 ≤ calculate_craefto_relevance text :=
  le_min (by positivity) (by norm_num)

theorem source_multipliers_nonneg (source : String) :
    0 ≤ source_multipliers source := by
  unfold source_multipliers
  split_ifs <;> norm_num

/-! ### Helper lemmas: the stable descending sort -/

theorem insert_desc_perm {α : Type} (key : α → ℚ) (x : α) (l : List α) :
    List.Perm (insert_desc key x l) (x :: l) := by
  induction l with
  | nil => exact List.Perm.refl _
  | cons y ys ih =>
    by_cases h : key x < key y
    · simp only [insert_desc, if_pos h]
      exact (ih.cons y).trans (List.Perm.swap x y ys)
    · simp only [insert_desc, if_neg h]
      exact List.Perm.refl _

theorem sort_desc_perm {α : Type} (key : α → ℚ) (l : List α) :
    List.Perm (sort_desc key l) l := by
  induction l with
  | nil => exact List.Perm.refl _
  | cons x xs ih => exact (insert_desc_perm key x (sort_desc key xs)).trans (ih.cons x)

theorem sort_desc_length {α : Type} (key : α → ℚ) (l : List α) :
    (sort_desc key l).length = l.length :=
  (sort_desc_perm key l).length_eq

theorem sorted_insert_desc {α : Type} (key : α → ℚ) (x : α) (l : List α)
    (h : List.Sorted (fun a b => key b ≤ key a) l) :
    List.Sorted (fun a b => key b ≤ key a) (insert_desc key x l) := by
  induction l with
  | nil => simp [insert_desc]
  | cons y ys ih =>
    rw [List.sorted_cons] at h
    by_cases hxy : key x < key y
    · simp only [insert_desc, if_pos hxy]
      rw [List.sorted_cons]
      refine ⟨fun b hb => ?_, ih h.2⟩
      rcases List.mem_cons.mp ((insert_desc_perm key x ys).mem_iff.mp hb) with hbx | hbys
      · rw [hbx]; exact le_of_lt hxy
      · exact h.1 b hbys
    · simp only [insert_desc, if_neg hxy]
      rw [List.sorted_cons]
      refine ⟨fun b hb => ?_, List.sorted_cons.mpr h⟩
      rcases List.mem_cons.mp hb with hby | hbys
      · rw [hby]; exact not_lt.mp hxy
      · exact le_trans (h.1 b hbys) (not_lt.mp hxy)

theorem sorted_sort_desc {α : Type} (key : α → ℚ) (l : List α) :
    List.Sorted (fun a b => key b ≤ key a) (sort_desc key l) := by
  induction l with
  | nil => simp [sort_desc]
  | cons x xs ih => exact sorted_insert_desc key x (sort_desc key xs) ih

theorem filter_insert_desc_pos {α : Type} (key : α → ℚ) (x : α) (l : List α) (v : ℚ)
    (hx : key x = v) :
    (insert_desc key x l).filter (fun a => decide (key a = v)) =
      x :: l.filter (fun a => decide (key a = v)) := by
  induction l with
  | nil => simp [insert_desc, hx]
  | cons y ys ih =>
    by_cases hxy : key x < key y
    · have hyv : ¬ key y = v := by rw [← hx]; exact (ne_of_gt hxy)
      simp only [insert_desc, if_pos hxy]
      simp [List.filter_cons, hyv, ih]
    · simp only [insert_desc, if_neg hxy]
      simp [List.filter_cons, hx]

theorem filter_insert_desc_neg {α : Type} (key : α → ℚ) (x : α) (l : List α) (v : ℚ)
    (hx : ¬ key x = v) :
    (insert_desc key x l).filter (fun a => decide (key a = v)) =
      l.filter (fun a => decide (key a = v)) := by
  induction l with
  | nil => simp [insert_desc, hx]
  | cons y ys ih =>
    by_cases hxy : key x < key y
    · simp only [insert_desc, if_pos hxy]
      simp [List.filter_cons, ih]
    · simp only [insert_desc, if_neg hxy]
      simp [List.filter_cons, hx]

theorem sort_desc_filter_key {α : Type} (key : α → ℚ) (l : List α) (v : ℚ) :
    (sort_desc key l).filter (fun a => decide (key a = v)) =
      l.filter (fun a => decide (key a = v)) := by
  induction l with
  | nil => rfl
  | cons x xs ih =>
    simp only [sort_desc]
    by_cases hx : key x = v
    · rw [filter_insert_desc_pos key x _ v hx, ih]
      simp [List.filter_cons, hx]
    · rw [filter_insert_desc_neg key x _ v hx, ih]
      simp [List.filter_cons, hx]

/-! ### Helper lemmas: deduplication -/

theorem dedup_go_idem (xs : List TopicDict) :
    ∀ seen, dedup_go (dedup_go xs seen) seen = dedup_go xs seen := by
  induction xs with
  | nil => intro seen; rfl
  | cons c rest ih =>
    intro seen
    cases h : seen.any (fun seen =>
        is_duplicate_pair (word_set (lowerStr c.topic)) (word_set seen)) with
    | true => simp only [dedup_go, h, if_true]; exact ih seen
    | false =>
      simp only [dedup_go, h, if_false, Bool.false_eq_true]
      exact congrArg (c :: ·) (ih (seen ++ [lowerStr c.topic]))

theorem dedup_go_sublist (xs : List TopicDict) :
    ∀ seen, (dedup_go xs seen).Sublist xs := by
  induction xs with
  | nil => intro seen; exact List.Sublist.refl _
  | cons c rest ih =>
    intro seen
    cases h : seen.any (fun seen =>
        is_duplicate_pair (word_set (lowerStr c.topic)) (word_set seen)) with
    | true =>
      simp only [dedup_go, h, if_true]
      exact (ih seen).cons c
    | false =>
      simp only [dedup_go, h, if_false, Bool.false_eq_true]
      exact (ih (seen ++ [lowerStr c.topic])).cons₂ c

theorem dedupe_spec_go_eq (xs : List TopicDict) :
    ∀ kept, dedupe_spec_go xs kept = dedup_go xs (kept.map (fun k => lowerStr k.topic)) := by
  induction xs with
  | nil => intro kept; rfl
  | cons c rest ih =>
    intro kept
    have hany : (kept.map (fun k => lowerStr k.topic)).any
        (fun seen => is_duplicate_pair (word_set (lowerStr c.topic)) (word_set seen)) =
        kept.any (fun k =>
          is_duplicate_pair (word_set (lowerStr c.topic)) (word_set (lowerStr k.topic))) := by
      induction kept with
      | nil => rfl
      | cons k ks ihk => simp [ihk]
    cases h : kept.any (fun k =>
        is_duplicate_pair (word_set (lowerStr c.topic)) (word_set (lowerStr k.topic))) with
    | true =>
      simp only [dedupe_spec_go, dedup_go, hany, h, if_true]
      exact ih kept
    | false =>
      simp only [dedupe_spec_go, dedup_go, hany, h, if_false, Bool.false_eq_true]
      refine congrArg (c :: ·) ?_
      rw [ih (kept ++ [c])]
      simp

/-! ### Helper lemmas: idea synthesis -/

theorem ideas_for_trend_length (choice : List String → String) (trend : TopicDict) :
    (ideas_for_trend choice trend).length =
      if (70:ℚ) < trend.relevance_score then 3 else 1 := by
  by_cases h : (70:ℚ) < trend.relevance_score <;> simp [ideas_for_trend, h]

theorem assign_ids_length (now : String) (ideas : List ContentIdea) :
    (assign_ids now ideas).length = ideas.length := by
  simp [assign_ids]

theorem build_content_ideas_error (choice : List String → String) (l : List PyObj)
    (h : PyObj.other ∈ l) :
    build_content_ideas choice l = Except.error "AttributeError" := by
  induction l with
  | nil => cases h
  | cons x rest ih =>
    cases x with
    | other => rfl
    | trend t =>
      have hrest : PyObj.other ∈ rest := by
        rcases List.mem_cons.mp h with h1 | h2
        · exact absurd h1 (by simp)
        · exact h2
      simp only [build_content_ideas, ih hrest, Except.map]

theorem generate_single_trend_length (choice : List String → String) (now : String)
    (trend : TopicDict) :
    Except.map List.length (generate_content_ideas choice now [PyObj.trend trend]) =
      Except.ok (if (70:ℚ) < trend.relevance_score then 3 else 1) := by
  have hb : build_content_ideas choice [PyObj.trend trend] =
      Except.ok (ideas_for_trend choice trend ++ []) := rfl
  have htake : ([PyObj.trend trend] : List PyObj).take 10 = [PyObj.trend trend] := rfl
  simp only [generate_content_ideas, htake, hb, Except.map, assign_ids_length,
    List.length_take, sort_desc_length, List.append_nil, ideas_for_trend_length]
  by_cases h : (70:ℚ) < trend.relevance_score <;> simp [h]

/-! ### Claim theorems -/

/-- Claim C1: for every candidate processed by the Relevance Scorer, the
resulting `relevance_score` is `min((raw_score + keyword_boost) *
source_multiplier, 100)` rounded to 2 decimals, where `keyword_boost` is the
case-insensitive substring match count over the domain keyword list divided by
the list size times 30, and `source_multiplier` the fixed per-source constant
(default 1.0).  `raw_score` is the candidate's source-reported score, stored
under the `relevance_score` key before scoring.  The code computes the boost
as `min(count/16, 1) * 30`; the clamp never fires because the count is at most
the list length, so the claimed formula holds. -/
theorem c1_relevance_score_formula (topics : List TopicDict) :
    calculate_relevance_scores topics = topics.map (fun c =>
      { c with
          relevance_score :=
            round2 (min ((c.relevance_score +
                (keyword_match_count c.topic : ℚ) / (craefto_keywords.length : ℚ) * 30) *
              source_multipliers c.source) 100),
          craefto_boost :=
            round2 ((keyword_match_count c.topic : ℚ) / (craefto_keywords.length : ℚ) * 30) }) := by
  unfold calculate_relevance_scores
  refine congrArg (fun f => List.map f topics) (funext fun c => ?_)
  simp [score_topic, relevance_formula, craefto_relevance_eq]

/-- Claim C2: if one source adapter among the four raises internally, the
coordinator run still completes with a non-error result computed exactly as if
that adapter had returned the empty list, so the scored topics derive only
from the other adapters' outputs; and even if all four adapters raise, the run
returns an (empty) result rather than raising.  (`find_trending_topics` is a
total function of the gathered adapter results: the loop skips exception
values, so no adapter failure can make it raise.) -/
theorem c2_partial_failure_isolation (a b c : List TopicDict) (e : String) :
    (find_trending_topics [Except.error e, Except.ok a, Except.ok b, Except.ok c] =
      find_trending_topics [Except.ok [], Except.ok a, Except.ok b, Except.ok c]) ∧
    (find_trending_topics [Except.ok a, Except.error e, Except.ok b, Except.ok c] =
      find_trending_topics [Except.ok a, Except.ok [], Except.ok b, Except.ok c]) ∧
    (find_trending_topics [Except.ok a, Except.ok b, Except.error e, Except.ok c] =
      find_trending_topics [Except.ok a, Except.ok b, Except.ok [], Except.ok c]) ∧
    (find_trending_topics [Except.ok a, Except.ok b, Except.ok c, Except.error e] =
      find_trending_topics [Except.ok a, Except.ok b, Except.ok c, Except.ok []]) ∧
    (∀ e1 e2 e3 e4 : String,
      find_trending_topics
        [Except.error e1, Except.error e2, Except.error e3, Except.error e4] = []) := by
  refine ⟨rfl, ?_, ?_, ?_, fun e1 e2 e3 e4 => rfl⟩ <;>
    simp [find_trending_topics, collect_gathered]

/-- Claim C4 counterexample: the claim drops a candidate already when a
containment ratio is **at least** `0.6`, but the code (`> 0.6`) keeps a
candidate whose ratio is exactly `3/5 = 0.6`.  Here the candidate shares 3 of
its 5 topic words with the previously kept topic (overlap 3 ≥ 2, ratio
`3/5 ≥ 0.6`), so per the claim it would be dropped, yet the deduplicator keeps
both candidates. -/
theorem c4_dedup_threshold_counterexample :
    2 ≤ overlap_count (word_set (lowerStr dup_candidate_example.topic))
        (word_set (lowerStr dup_seen_example.topic)) ∧
    (3:ℚ)/5 ≤ (overlap_count (word_set (lowerStr dup_candidate_example.topic))
        (word_set (lowerStr dup_seen_example.topic)) : ℚ) /
      ((word_set (lowerStr dup_candidate_example.topic)).length : ℚ) ∧
    deduplicate_topics [dup_seen_example, dup_candidate_example] =
      [dup_seen_example, dup_candidate_example] :=
  ⟨by decide, by decide, by decide⟩

/-- Claim C4 (amended: both containment comparisons are strict, `> 0.6`
rather than `≥ 0.6`): the deduplicator drops a candidate exactly when some
previously kept candidate's topic word set overlaps the candidate's word set
in at least 2 words and either overlap ratio strictly exceeds `0.6`; otherwise
the candidate is kept and its lowercased topic joins the seen set.
`dedupe_spec` transcribes that wording, accumulating the kept candidates
themselves; the theorem shows it coincides with the code's `seen_topics`-set
formulation. -/
theorem c4_dedup_rule_amended (topics : List TopicDict) :
    deduplicate_topics topics = dedupe_spec topics :=
  (dedupe_spec_go_eq topics []).symm

/-- Claim C5: the deduplicator is idempotent — deduplicating an already
deduplicated candidate list changes nothing. -/
theorem c5_dedup_idempotent (topics : List TopicDict) :
    deduplicate_topics (deduplicate_topics topics) = deduplicate_topics topics :=
  dedup_go_idem topics []

/-- Claim C7: every candidate output by the Relevance Scorer has
`relevance_score` between 0 and 100.  The hypothesis is the data-model
invariant that the source-reported score of each incoming candidate is
non-negative (adapters produce non-negative scores). -/
theorem c7_score_bound (topics : List TopicDict)
    (h : ∀ c ∈ topics, 0 ≤ c.relevance_score) :
    ∀ t ∈ calculate_relevance_scores topics,
      0 ≤ t.relevance_score ∧ t.relevance_score ≤ 100 := by
  intro t ht
  rcases List.mem_map.mp ht with ⟨c, hc, rfl⟩
  have hbase := h c hc
  have hboost : 0 ≤ calculate_craefto_relevance c.topic * 30 :=
    mul_nonneg (craefto_relevance_nonneg c.topic) (by norm_num)
  constructor
  · simp only [score_topic, relevance_formula]
    apply round2_nonneg
    refine le_min ?_ (by norm_num)
    exact mul_nonneg (add_nonneg hbase hboost) (source_multipliers_nonneg c.source)
  · simp only [score_topic, relevance_formula]
    exact round2_le_100 (min_le_right _ _)

theorem c7_score_bound_witness :
    (∀ c ∈ [scorer_nonneg_example], 0 ≤ c.relevance_score) ∧
    ∀ t ∈ calculate_relevance_scores [scorer_nonneg_example],
      0 ≤ t.relevance_score ∧ t.relevance_score ≤ 100 :=
  ⟨by decide, c7_score_bound [scorer_nonneg_example] (by decide)⟩

/-- Claim C8: for a fixed source, the score produced by the Relevance Scorer
(`relevance_formula`, which is exactly what `score_topic` applies to each
candidate) is monotonically non-decreasing in the source-reported base score
and in the keyword boost. -/
theorem c8_score_monotone :
    (∀ c : TopicDict, (score_topic c).relevance_score =
      relevance_formula c.relevance_score (calculate_craefto_relevance c.topic * 30)
        (source_multipliers c.source)) ∧
    ∀ (source : String) (b1 b2 k1 k2 : ℚ), b1 ≤ b2 → k1 ≤ k2 →
      relevance_formula b1 k1 (source_multipliers source) ≤
        relevance_formula b2 k2 (source_multipliers source) := by
  refine ⟨fun c => rfl, fun source b1 b2 k1 k2 hb hk => ?_⟩
  unfold relevance_formula
  apply round2_mono
  refine min_le_min ?_ le_rfl
  exact mul_le_mul_of_nonneg_right (add_le_add hb hk) (source_multipliers_nonneg source)

theorem c8_score_monotone_witness :
    (10:ℚ) ≤ 20 ∧ (1:ℚ) ≤ 2 ∧
    relevance_formula 10 1 (source_multipliers "reddit") ≤
      relevance_formula 20 2 (source_multipliers "reddit") :=
  ⟨by norm_num, by norm_num,
    c8_score_monotone.2 "reddit" 10 20 1 2 (by norm_num) (by norm_num)⟩

/-- Claim C9 counterexample: the claim says a TopicCandidate passed to the
Scorer has the same field values before and after scoring, but
`_calculate_relevance_scores` overwrites `relevance_score` and
`craefto_boost` on the dicts it receives (in place — the returned records are
the post-call state of the input records, see `calculate_relevance_scores`):
scoring changes this record from base score 50 to `min((50 + 3.75)*1.2, 100) =
64.5`. -/
theorem c9_no_mutation_counterexample :
    calculate_relevance_scores [scorer_input_example] ≠ [scorer_input_example] := by
  decide

/-- Claim C9 (amended: the Relevance Scorer mutates the records it receives,
but only their two derived fields — `relevance_score` and `craefto_boost`;
every other field of every record is left unchanged, and the deduplication
stage returns a sublist of its input records entirely unchanged). -/
theorem c9_scorer_frame_amended (topics : List TopicDict) :
    ((calculate_relevance_scores topics).map
        (fun t => (t.topic, t.source, t.context, t.content_angle)) =
      topics.map (fun t => (t.topic, t.source, t.context, t.content_angle))) ∧
    (deduplicate_topics topics).Sublist topics := by
  constructor
  · unfold calculate_relevance_scores
    rw [List.map_map]
    refine congrArg (fun f => List.map f topics) (funext fun c => ?_)
    simp [score_topic, Function.comp]
  · exact dedup_go_sublist topics []

/-- Claim C10: if any exception is raised inside the `try` block of
`generate_content_ideas` before `prioritized_ideas` is assigned (here: an
element of `trending_data` that does not support the `.get` field accesses),
the handler catches and logs it, but the subsequent
`return prioritized_ideas` reads a never-assigned local, so the call raises
(`Except.error`) instead of returning an idea list. -/
theorem c10_unbound_local_on_bad_input (choice : List String → String) (now : String)
    (trending_data : List PyObj) (h : PyObj.other ∈ trending_data.take 10) :
    generate_content_ideas choice now trending_data =
      Except.error "UnboundLocalError: prioritized_ideas" := by
  have herr := build_content_ideas_error choice (trending_data.take 10) h
  simp [generate_content_ideas, herr]

theorem c10_unbound_local_on_bad_input_witness :
    PyObj.other ∈ ([PyObj.other] : List PyObj).take 10 ∧
    generate_content_ideas choice_head "t" [PyObj.other] =
      Except.error "UnboundLocalError: prioritized_ideas" :=
  ⟨by decide, c10_unbound_local_on_bad_input choice_head "t" [PyObj.other] (by decide)⟩

/-- Claim C3: every scored topic considered by the Idea Synthesizer yields one
idea per format — all three formats (blog, social, email) when
`relevance_score > 70`, and exactly one blog idea when the score is at or
below 70; in particular a single topic scoring 75 makes
`generate_content_ideas` return exactly 3 ideas, and one scoring 50 exactly 1. -/
theorem c3_idea_fanout_threshold (choice : List String → String) :
    (∀ trend : TopicDict,
      ((70:ℚ) < trend.relevance_score →
        (ideas_for_trend choice trend).map (fun idea => idea.format) =
          ["blog", "social", "email"]) ∧
      (trend.relevance_score ≤ 70 →
        (ideas_for_trend choice trend).map (fun idea => idea.format) = ["blog"])) ∧
    (∀ (now : String) (trend : TopicDict), trend.relevance_score = 75 →
      Except.map List.length (generate_content_ideas choice now [PyObj.trend trend]) =
        Except.ok 3) ∧
    (∀ (now : String) (trend : TopicDict), trend.relevance_score = 50 →
      Except.map List.length (generate_content_ideas choice now [PyObj.trend trend]) =
        Except.ok 1) := by
  refine ⟨fun trend => ⟨fun h => ?_, fun h => ?_⟩,
    fun now trend h => ?_, fun now trend h => ?_⟩
  · unfold ideas_for_trend
    rw [if_pos h]
    simp [create_content_idea]
  · unfold ideas_for_trend
    rw [if_neg (not_lt.mpr h)]
    simp [create_content_idea]
  · rw [generate_single_trend_length, h, if_pos (by norm_num)]
  · rw [generate_single_trend_length, h, if_neg (by norm_num)]

theorem c3_idea_fanout_threshold_witness :
    ((70:ℚ) < fanout_high_example.relevance_score ∧
      (ideas_for_trend choice_head fanout_high_example).map (fun idea => idea.format) =
        ["blog", "social", "email"]) ∧
    (fanout_low_example.relevance_score ≤ 70 ∧
      (ideas_for_trend choice_head fanout_low_example).map (fun idea => idea.format) =
        ["blog"]) ∧
    (fanout_high_example.relevance_score = 75 ∧
      Except.map List.length
        (generate_content_ideas choice_head "ts" [PyObj.trend fanout_high_example]) =
        Except.ok 3) ∧
    (fanout_low_example.relevance_score = 50 ∧
      Except.map List.length
        (generate_content_ideas choice_head "ts" [PyObj.trend fanout_low_example]) =
        Except.ok 1) :=
  ⟨⟨by decide, ((c3_idea_fanout_threshold choice_head).1 fanout_high_example).1 (by decide)⟩,
   ⟨by decide, ((c3_idea_fanout_threshold choice_head).1 fanout_low_example).2 (by decide)⟩,
   ⟨rfl, (c3_idea_fanout_threshold choice_head).2.1 "ts" fanout_high_example rfl⟩,
   ⟨rfl, (c3_idea_fanout_threshold choice_head).2.2 "ts" fanout_low_example rfl⟩⟩

/-- Claim C6: the coordinator's final scored-topic output is sorted descending
solely by `relevance_score` and truncated to the top 20 (`rank_topics` is the
`sorted(...)[:20]` step of `find_trending_topics`); the sort is stable — for
every key value, the elements carrying it appear in the output in their
original order; and for 30 scored topics with pairwise distinct scores the
ranking returns exactly 20 topics, each scoring strictly above every topic
left out. -/
theorem c6_ranking_stable_topk :
    (∀ results : List (Except String (List TopicDict)),
      List.Sorted (fun a b => b.relevance_score ≤ a.relevance_score)
        (find_trending_topics results)) ∧
    (∀ scored : List TopicDict, rank_topics scored =
      (sort_desc (fun t => t.relevance_score) scored).take 20) ∧
    (∀ (scored : List TopicDict) (v : ℚ),
      (sort_desc (fun t => t.relevance_score) scored).filter
          (fun t => decide (t.relevance_score = v)) =
        scored.filter (fun t => decide (t.relevance_score = v))) ∧
    (∀ scored : List TopicDict, scored.length = 30 →
      scored.Pairwise (fun a b => a.relevance_score ≠ b.relevance_score) →
      (rank_topics scored).length = 20 ∧
      ∀ x ∈ rank_topics scored, ∀ y ∈ scored, y ∉ rank_topics scored →
        y.relevance_score < x.relevance_score) := by
  refine ⟨fun results => ?_, fun scored => rfl,
    fun scored v => sort_desc_filter_key _ _ _, fun scored h30 hdist => ⟨?_, ?_⟩⟩
  · exact List.Pairwise.sublist (List.take_sublist _ _)
      (sorted_sort_desc (fun t : TopicDict => t.relevance_score)
        (calculate_relevance_scores (deduplicate_topics (collect_gathered results))))
  · show ((sort_desc (fun t => t.relevance_score) scored).take 20).length = 20
    rw [List.length_take, (sort_desc_perm (fun t => t.relevance_score) scored).length_eq, h30]
    decide
  · intro x hx y hy hyn
    have hperm := sort_desc_perm (fun t => t.relevance_score) scored
    have hsorted := sorted_sort_desc (fun t => t.relevance_score) scored
    have hx20 : x ∈ (sort_desc (fun t => t.relevance_score) scored).take 20 := hx
    have hyn20 : y ∉ (sort_desc (fun t => t.relevance_score) scored).take 20 := hyn
    have hys : y ∈ sort_desc (fun t => t.relevance_score) scored := hperm.mem_iff.mpr hy
    have hsplit := List.take_append_drop 20 (sort_desc (fun t => t.relevance_score) scored)
    have hydrop : y ∈ (sort_desc (fun t => t.relevance_score) scored).drop 20 := by
      rcases List.mem_append.mp (by rw [hsplit]; exact hys) with h1 | h2
      · exact absurd h1 hyn20
      · exact h2
    have hmain := (List.pairwise_append.mp (by rw [hsplit]; exact hsorted)).2.2
    have hle : y.relevance_score ≤ x.relevance_score := hmain x hx20 y hydrop
    have hdist2 : (sort_desc (fun t => t.relevance_score) scored).Pairwise
        (fun a b => a.relevance_score ≠ b.relevance_score) :=
      (hperm.pairwise_iff (fun hab => Ne.symm hab)).mpr hdist
    have hne := (List.pairwise_append.mp (by rw [hsplit]; exact hdist2)).2.2 x hx20 y hydrop
    exact lt_of_le_of_ne hle (Ne.symm hne)

theorem c6_ranking_stable_topk_witness :
    ranking_input_30.length = 30 ∧
    ranking_input_30.Pairwise (fun a b => a.relevance_score ≠ b.relevance_score) ∧
    (rank_topics ranking_input_30).length = 20 :=
  ⟨by decide, by decide,
    (c6_ranking_stable_topk.2.2.2 ranking_input_30 (by decide) (by decide)).1⟩
